import Mathlib

/-!
Shallow embedding of the request-dispatch and credential-lifecycle core of the
mangadex-rs client library (src/client.rs, src/auth.rs, src/common.rs,
src/errors.rs, src/api/auth.rs, src/schema/auth.rs).

Modelling conventions:
- JSON documents are the inductive `Json` below; serde deserializers become
  functions `Json → Except String α` (serde errors carry a message string).
- The HTTP transport is a parameter `Request → Except Unit Json`: it either
  fails at the transport level or produces the JSON body of the response.
  The list of `Request` values handed to the transport is returned alongside
  the result, so "no network call was made" is expressed as an empty list.
- Rust `Result<T, E>` is `Except E T`; `Option<T>` is `Option T`; `i32` is
  `Int` (the statuses and pagination counters involved are small); `Uuid` is
  a wrapper around `String`, and uuid parsing (an external crate) is passed
  in as a parameter `String → Option Uuid`.
- `reqwest::Url::join` is modelled as string concatenation: its parse-failure
  branch (which would return `Errors::ParseUrl` before any network call) is
  not modelled, as every endpoint path in the crate is a valid relative
  reference.
- Methods taking `&self` cannot replace the stored tokens; their embeddings
  either do not return a `Client` or return the input client unchanged.
-/

namespace MangadexRs

/-- JSON values (objects keep field order, as serde sees them). -/
inductive Json where
  | null
  | bool (b : Bool)
  | num (n : Int)
  | str (s : String)
  | arr (elems : List Json)
  | obj (fields : List (String × Json))

/-- src/schema/auth.rs: `AuthTokens { session, refresh }`. -/
structure AuthTokens where
  session : String
  refresh : String
deriving DecidableEq

/-- Opaque UUID, wrapping its string form (the uuid crate is external). -/
structure Uuid where
  val : String
deriving DecidableEq

/-- src/errors.rs: `ApiError { id, status, title, detail }`. -/
structure ApiError where
  id : Uuid
  status : Int
  title : Option String
  detail : Option String
deriving DecidableEq

/-- src/errors.rs: `ApiErrors { errors: Vec<ApiError> }` (serde default: empty). -/
structure ApiErrors where
  errors : List ApiError
deriving DecidableEq

/-- src/errors.rs: the `Errors` enum. `ParseUrl` and `Http` drop their payloads
(url::ParseError and reqwest::Error are external and carry no information the
claims depend on). -/
inductive Errors where
  | ParseUrl
  | Http
  | MissingTokens
  | HttpWithBody (e : ApiErrors)
  | PingError
deriving DecidableEq

/-- src/common.rs: `Results<T> { results, limit, offset, total }`. -/
structure Results (T : Type) where
  results : List T
  limit : Int
  offset : Int
  total : Int

/-- src/common.rs / src/model/common.rs: `struct NoData;`. -/
inductive NoData where
  | mk
deriving DecidableEq

/-- src/schema/auth.rs: `LoginResponse { #[serde(rename = "token")] tokens }`. -/
structure LoginResponse where
  tokens : AuthTokens
deriving DecidableEq

/-- src/schema/auth.rs: `RefreshTokenResponse { tokens, message }`. -/
structure RefreshTokenResponse where
  tokens : AuthTokens
  message : Option String
deriving DecidableEq

/-! ### serde deserializers -/

/-- serde: a string where a string is expected, anything else is a type error. -/
def decodeString : Json → Except String String
  | .str s => .ok s
  | _ => .error "invalid type: expected a string"

/-- serde: an integer (i32 in the source; range checks are not modelled). -/
def decodeI32 : Json → Except String Int
  | .num n => .ok n
  | _ => .error "invalid type: expected an integer"

/-- serde: an `Option<String>` struct field — missing or null means `None`. -/
def decodeOptStringField (fields : List (String × Json)) (k : String) :
    Except String (Option String) :=
  match List.lookup k fields with
  | none => .ok none
  | some .null => .ok none
  | some (.str s) => .ok (some s)
  | some _ => .error "invalid type: expected a string or null"

/-- Deserialize every element of a JSON array; one bad element fails the
whole array, exactly as serde does for `Vec<T>`. -/
def decodeList (d : Json → Except String α) : List Json → Except String (List α)
  | [] => .ok []
  | j :: js => do
    let x ← d j
    let xs ← decodeList d js
    .ok (x :: xs)

/-- src/common.rs lines 103-116: the internally tagged envelope
`#[serde(tag = "result")]` with variants renamed "ok" and "error"
(`ApiResultDef` / `ApiResult`). The tag field must be present and must be the
string "ok" or "error"; anything else is a deserialization error. The variant
payload is deserialized from the remaining fields (the tag entry is consumed;
duplicate-tag inputs, which serde rejects, are not modelled). -/
def deserializeApiResult (dT : Json → Except String T) (dE : Json → Except String E) :
    Json → Except String (Except E T)
  | .obj fields =>
    match List.lookup "result" fields with
    | none => .error "missing field result"
    | some (.str s) =>
      if s = "ok" then
        (dT (.obj (fields.eraseP (fun p => p.1 == "result")))).map
          (fun t => (.ok t : Except E T))
      else if s = "error" then
        (dE (.obj (fields.eraseP (fun p => p.1 == "result")))).map
          (fun e => (.error e : Except E T))
      else .error ("unknown variant " ++ s ++ ", expected ok or error")
    | some _ => .error "invalid type: the result tag must be a string"
  | _ => .error "invalid type: expected a map"

/-- src/errors.rs: serde derive for `ApiError` (id and status required,
title and detail optional). Uuid parsing is the external uuid crate,
passed in as `parseUuid`. -/
def deserializeApiError (parseUuid : String → Option Uuid) :
    Json → Except String ApiError
  | .obj fields => do
    let idj ← match List.lookup "id" fields with
      | some j => pure j
      | none => .error "missing field id"
    let ids ← decodeString idj
    let uid ← match parseUuid ids with
      | some u => pure u
      | none => .error "UUID parsing failed"
    let st ← match List.lookup "status" fields with
      | some j => decodeI32 j
      | none => .error "missing field status"
    let ti ← decodeOptStringField fields "title"
    let de ← decodeOptStringField fields "detail"
    .ok { id := uid, status := st, title := ti, detail := de }
  | _ => .error "invalid type: expected a map"

/-- src/errors.rs: serde derive for `ApiErrors`; the `errors` field carries
`#[serde(default)]`, so a missing field becomes the empty list. -/
def deserializeApiErrors (parseUuid : String → Option Uuid) :
    Json → Except String ApiErrors
  | .obj fields =>
    match List.lookup "errors" fields with
    | none => .ok { errors := [] }
    | some (.arr js) =>
      (decodeList (deserializeApiError parseUuid) js).map (fun l => { errors := l })
    | some _ => .error "invalid type: expected a sequence"
  | _ => .error "invalid type: expected a map"

/-- src/schema/auth.rs: serde derive for `AuthTokens`. -/
def decodeAuthTokens : Json → Except String AuthTokens
  | .obj fields => do
    let s ← match List.lookup "session" fields with
      | some j => decodeString j
      | none => .error "missing field session"
    let r ← match List.lookup "refresh" fields with
      | some j => decodeString j
      | none => .error "missing field refresh"
    .ok { session := s, refresh := r }
  | _ => .error "invalid type: expected a map"

/-- src/schema/auth.rs: serde derive for `LoginResponse` (wire name "token"). -/
def decodeLoginResponse : Json → Except String LoginResponse
  | .obj fields =>
    match List.lookup "token" fields with
    | some j => (decodeAuthTokens j).map (fun t => { tokens := t })
    | none => .error "missing field token"
  | _ => .error "invalid type: expected a map"

/-- src/schema/auth.rs: serde derive for `RefreshTokenResponse`. -/
def decodeRefreshTokenResponse : Json → Except String RefreshTokenResponse
  | .obj fields => do
    let t ← match List.lookup "token" fields with
      | some j => decodeAuthTokens j
      | none => .error "missing field token"
    let m ← decodeOptStringField fields "message"
    .ok { tokens := t, message := m }
  | _ => .error "invalid type: expected a map"

/-- The unit struct `NoData` ignores its envelope content (the crate's own
tests decode it from a bare ok envelope). -/
def decodeNoData : Json → Except String NoData :=
  fun _ => .ok .mk

/-- src/common.rs: serde derive for `Results<T>` (all four fields required),
with the element deserializer passed in. -/
def decodeResultsRaw (dElem : Json → Except String T) :
    Json → Except String (Results T)
  | .obj fields => do
    let rs ← match List.lookup "results" fields with
      | some (.arr js) => decodeList dElem js
      | some _ => .error "invalid type: expected a sequence"
      | none => .error "missing field results"
    let l ← match List.lookup "limit" fields with
      | some j => decodeI32 j
      | none => .error "missing field limit"
    let o ← match List.lookup "offset" fields with
      | some j => decodeI32 j
      | none => .error "missing field offset"
    let tot ← match List.lookup "total" fields with
      | some j => decodeI32 j
      | none => .error "missing field total"
    .ok { results := rs, limit := l, offset := o, total := tot }
  | _ => .error "invalid type: expected a map"

/-! ### FromResponse conversions (src/common.rs lines 132-166) -/

/-- src/common.rs lines 132-138: `FromResponse for Result<T, Errors>` —
`value.into_result().map_err(|e| e.into())` (the Into impl is
`Errors::HttpWithBody`). -/
def resultFromResponse (value : Except ApiErrors T) : Except Errors T :=
  value.mapError Errors.HttpWithBody

/-- src/common.rs lines 140-155: `FromResponse for Results<Result<T, Errors>>` —
each element converted independently, pagination fields copied over. -/
def Results.from_response (value : Results (Except ApiErrors T)) :
    Results (Except Errors T) :=
  { results := value.results.map (fun r => r.mapError Errors.HttpWithBody)
    offset := value.offset
    limit := value.limit
    total := value.total }

/-- src/common.rs lines 157-166: `FromResponse for Vec<Result<T, Errors>>`. -/
def vecFromResponse (value : List (Except ApiErrors T)) : List (Except Errors T) :=
  value.map (fun r => r.mapError Errors.HttpWithBody)

/-- Full decode of a paginated endpoint response: deserialize
`Results<ApiResult<T, ApiErrors>>` from JSON, then apply
`Results::from_response` (the composition performed by `send_request`). -/
def decodeResultsPage (dT : Json → Except String T) (parseUuid : String → Option Uuid)
    (j : Json) : Except String (Results (Except Errors T)) :=
  (decodeResultsRaw (deserializeApiResult dT (deserializeApiErrors parseUuid)) j).map
    Results.from_response

/-! ### Client, endpoints and dispatch (src/client.rs, src/api/auth.rs) -/

/-- HTTP method of an endpoint. -/
inductive Method where
  | GET
  | POST
  | PUT
  | DELETE
deriving DecidableEq

/-- What `send_request` hands to the HTTP transport: method, joined URL,
optional query string, optional JSON body, multipart flag, and the optional
bearer credential attached from the stored session token. -/
structure Request where
  method : Method
  url : String
  query : Option String
  body : Option Json
  multipart : Bool
  bearer : Option String

/-- The `Endpoint` trait data (src/common.rs lines 168-190 and the
impl_endpoint macro): method, path, serialized query, JSON body, multipart
payload flag, and the auth-required flag. -/
structure EndpointSpec where
  method : Method
  path : String
  query : Option String
  body : Option Json
  multipart : Bool
  require_auth : Bool

/-- src/client.rs: the `Client` — base URL plus the optional stored token
pair. The reqwest handle is replaced by transport parameters on each call. -/
structure Client where
  base_url : String
  tokens : Option AuthTokens
deriving DecidableEq

/-- src/client.rs lines 93-96: `get_tokens`. -/
def Client.get_tokens (c : Client) : Option AuthTokens :=
  c.tokens

/-- src/client.rs lines 98-101: `set_tokens` (a public method). -/
def Client.set_tokens (c : Client) (tokens : Option AuthTokens) : Client :=
  { c with tokens := tokens }

/-- src/auth.rs lines 80-82: `require_tokens` —
`self.tokens.as_ref().ok_or(Errors::MissingTokens)`. -/
def Client.require_tokens (c : Client) : Except Errors AuthTokens :=
  match c.tokens with
  | some t => .ok t
  | none => .error Errors.MissingTokens

/-- The tail of `send_request` once the request is fully built: hand it to the
transport (`req.send().await?`), parse the body (`res.json::<...>().await?` —
both failures surface as `Errors::Http`, reqwest errors), then apply
`FromResponse::from_response`. The request is recorded as sent in every
branch. -/
def performSend (req : Request) (transport : Request → Except Unit Json)
    (decodeRaw : Json → Except String Raw) (fromResp : Raw → R) :
    Except Errors R × List Request :=
  match transport req with
  | .error _ => (.error Errors.Http, [req])
  | .ok j =>
    match decodeRaw j with
    | .error _ => (.error Errors.Http, [req])
    | .ok raw => (.ok (fromResp raw), [req])

/-- src/client.rs lines 49-80: `send_request`. Build the URL from the base
URL and the endpoint path, attach query, body and multipart payloads, then:
if tokens are stored, attach the session token as a bearer credential; else,
if the endpoint requires auth, return `Errors::MissingTokens` without calling
the transport; otherwise send unauthenticated. -/
def Client.send_request (c : Client) (e : EndpointSpec)
    (transport : Request → Except Unit Json)
    (decodeRaw : Json → Except String Raw) (fromResp : Raw → R) :
    Except Errors R × List Request :=
  let req : Request :=
    { method := e.method
      url := c.base_url ++ e.path
      query := e.query
      body := e.body
      multipart := e.multipart
      bearer := none }
  match c.get_tokens with
  | some tokens =>
    performSend { req with bearer := some tokens.session } transport decodeRaw fromResp
  | none =>
    if e.require_auth then (.error Errors.MissingTokens, [])
    else performSend req transport decodeRaw fromResp

/-- State-transformer view of `send_request`: the source method takes
`&self`, so the client state after the call is the input state. -/
def Client.send_request_st (c : Client) (e : EndpointSpec)
    (transport : Request → Except Unit Json)
    (decodeRaw : Json → Except String Raw) (fromResp : Raw → R) :
    (Except Errors R × List Request) × Client :=
  (c.send_request e transport decodeRaw fromResp, c)

/-- The `send()` generated by impl_endpoint with `flatten_result`
(src/client.rs lines 238-244): dispatch with response type
`Result<T> = ApiResult<T, ApiErrors>` converted by `FromResponse`, then
flatten the two error layers with `?`. -/
def Client.send_flattened (c : Client) (e : EndpointSpec)
    (transport : Request → Except Unit Json)
    (dT : Json → Except String T) (parseUuid : String → Option Uuid) :
    Except Errors T × List Request :=
  let p := c.send_request e transport
    (deserializeApiResult dT (deserializeApiErrors parseUuid)) resultFromResponse
  (match p.1 with
   | .error err => .error err
   | .ok inner => inner, p.2)

/-- src/api/auth.rs lines 16-28: the `Login` endpoint —
`POST /auth/login`, JSON body `{username, password}`, no auth flag. -/
def loginEndpoint (username password : String) : EndpointSpec :=
  { method := .POST
    path := "/auth/login"
    query := none
    body := some (.obj [("username", .str username), ("password", .str password)])
    multipart := false
    require_auth := false }

/-- src/api/auth.rs lines 49-56: the `Logout` endpoint —
`POST /auth/logout`, no payload, auth-required. -/
def logoutEndpoint : EndpointSpec :=
  { method := .POST
    path := "/auth/logout"
    query := none
    body := none
    multipart := false
    require_auth := true }

/-- src/api/auth.rs lines 65-76: the `RefreshToken` endpoint —
`POST /auth/refresh`, JSON body `{token: refresh_token}`, no auth flag. -/
def refreshTokenEndpoint (refresh_token : String) : EndpointSpec :=
  { method := .POST
    path := "/auth/refresh"
    query := none
    body := some (.obj [("token", .str refresh_token)])
    multipart := false
    require_auth := false }

/-- src/client.rs lines 86-91: `login` — send the Login endpoint
(flatten_result); on success store the returned token pair and return it;
on any failure the `?` propagates before `set_tokens` runs. -/
def Client.login (c : Client) (username password : String)
    (transport : Request → Except Unit Json) (parseUuid : String → Option Uuid) :
    Except Errors AuthTokens × Client :=
  match (c.send_flattened (loginEndpoint username password) transport
      decodeLoginResponse parseUuid).1 with
  | .error err => (.error err, c)
  | .ok res => (.ok res.tokens, c.set_tokens (some res.tokens))

/-- src/client.rs lines 104-109: `logout` — send the Logout endpoint
(discard_result, so both error layers propagate with `?`); only on success
clear the stored tokens. -/
def Client.logout (c : Client) (transport : Request → Except Unit Json)
    (parseUuid : String → Option Uuid) : Except Errors Unit × Client :=
  match (c.send_flattened logoutEndpoint transport decodeNoData parseUuid).1 with
  | .error err => (.error err, c)
  | .ok _ => (.ok (), c.set_tokens none)

/-- src/client.rs lines 112-118: `refresh_tokens` — require a stored pair
(else `Errors::MissingTokens`), send the RefreshToken endpoint with the
stored refresh token; on success store the whole returned pair; on failure
the `?` propagates before `set_tokens` runs. -/
def Client.refresh_tokens (c : Client) (transport : Request → Except Unit Json)
    (parseUuid : String → Option Uuid) :
    Except Errors RefreshTokenResponse × Client :=
  match c.get_tokens with
  | none => (.error Errors.MissingTokens, c)
  | some tokens =>
    match (c.send_flattened (refreshTokenEndpoint tokens.refresh) transport
        decodeRefreshTokenResponse parseUuid).1 with
    | .error err => (.error err, c)
    | .ok res => (.ok res, c.set_tokens (some res.tokens))

/-- src/client.rs lines 121-130: `ping` — GET base_url/ping over the raw
transport (text body); succeeds iff the body is the literal "pong". Takes
`&self`: the client is returned unchanged. -/
def Client.ping (c : Client) (textTransport : String → Except Unit String) :
    Except Errors Unit × Client :=
  match textTransport (c.base_url ++ "/ping") with
  | .error _ => (.error Errors.Http, c)
  | .ok body => if body = "pong" then (.ok (), c) else (.error Errors.PingError, c)

/-! ### Concrete fixtures (mirroring the crate's own mock-server tests) -/

/-- Uuid parser accepting every string verbatim (stand-in for the uuid crate
in concrete evaluations). -/
def parseUuidAny : String → Option Uuid :=
  fun s => some { val := s }

/-- A fresh client with no stored credentials. -/
def clientNoTokens : Client :=
  { base_url := "https://api.mangadex.org", tokens := none }

/-- The token pair used throughout the crate's tests. -/
def tokens0 : AuthTokens :=
  { session := "sessiontoken", refresh := "refreshtoken" }

/-- A client that already holds `tokens0`. -/
def clientWithTokens : Client :=
  { base_url := "https://api.mangadex.org", tokens := some tokens0 }

/-- A transport that always fails at the transport level. -/
def failTransport : Request → Except Unit Json :=
  fun _ => .error ()

/-- A transport replaying the login_ok mock response body. -/
def loginOkTransport : Request → Except Unit Json :=
  fun _ => .ok (.obj [("result", .str "ok"),
    ("token", .obj [("session", .str "sessiontoken"),
                    ("refresh", .str "refreshtoken")])])

/-- A transport replaying a bare ok envelope (the logout mock response). -/
def okEnvelopeTransport : Request → Except Unit Json :=
  fun _ => .ok (.obj [("result", .str "ok")])

/-- A transport replaying the refresh_token mock response body. -/
def refreshOkTransport : Request → Except Unit Json :=
  fun _ => .ok (.obj [("result", .str "ok"),
    ("token", .obj [("session", .str "sessiontoken2"),
                    ("refresh", .str "refreshtoken2")]),
    ("message", .str "Token refreshed!")])

/-! ### Helper lemmas -/

/-- Once `send_request` reaches the send phase, exactly one request — the one
it built — goes to the transport, whatever the transport and decoder do. -/
theorem performSend_sends_once (req : Request) (transport : Request → Except Unit Json)
    (decodeRaw : Json → Except String Raw) (fromResp : Raw → R) :
    (performSend req transport decodeRaw fromResp).2 = [req] := by
  unfold performSend
  cases htr : transport req with
  | error e => rfl
  | ok j =>
    cases hd : decodeRaw j with
    | error e => simp [hd]
    | ok raw => simp [hd]

/-- The client after `login` is determined by the call's result: on success
the returned pair is stored, on failure the client is untouched. -/
theorem login_spec (c : Client) (u p : String)
    (tr : Request → Except Unit Json) (pu : String → Option Uuid) :
    (c.login u p tr pu).2 =
      match (c.login u p tr pu).1 with
      | .ok t => c.set_tokens (some t)
      | .error _ => c := by
  unfold Client.login
  split <;> rfl

/-- The client after `logout` is determined by the call's result: on success
the stored pair is cleared, on failure the client is untouched. -/
theorem logout_spec (c : Client) (tr : Request → Except Unit Json)
    (pu : String → Option Uuid) :
    (c.logout tr pu).2 =
      match (c.logout tr pu).1 with
      | .ok _ => c.set_tokens none
      | .error _ => c := by
  unfold Client.logout
  split <;> rfl

/-- The client after `refresh_tokens` is determined by the call's result: on
success the returned pair is stored, on failure the client is untouched. -/
theorem refresh_tokens_spec (c : Client) (tr : Request → Except Unit Json)
    (pu : String → Option Uuid) :
    (c.refresh_tokens tr pu).2 =
      match (c.refresh_tokens tr pu).1 with
      | .ok res => c.set_tokens (some res.tokens)
      | .error _ => c := by
  unfold Client.refresh_tokens
  split
  · rfl
  · split <;> rfl

/-! ### Claims -/

/-- C1: for every endpoint flagged auth-required, invoking it through
`send_request` on a Client whose stored tokens are None returns
`Errors.MissingTokens`, and no request is handed to the transport. -/
theorem c1_auth_required_without_tokens_fails_locally
    (c : Client) (e : EndpointSpec) (transport : Request → Except Unit Json)
    (decodeRaw : Json → Except String Raw) (fromResp : Raw → R)
    (hauth : e.require_auth = true) (hnone : c.tokens = none) :
    c.send_request e transport decodeRaw fromResp =
      (.error Errors.MissingTokens, []) := by
  simp [Client.send_request, Client.get_tokens, hnone, hauth]

/-- Witness for C1: the auth-required Logout endpoint on a token-less client. -/
theorem c1_witness :
    logoutEndpoint.require_auth = true ∧
    clientNoTokens.send_request logoutEndpoint failTransport decodeNoData
      (fun r => r) = (.error Errors.MissingTokens, []) :=
  ⟨rfl, c1_auth_required_without_tokens_fails_locally clientNoTokens logoutEndpoint
    failTransport decodeNoData (fun r => r) rfl rfl⟩

/-- C2: a paginated response holding one element tagged "ok" and a sibling
tagged "error" decodes to a page whose elements are independently one success
and one failure, with limit, offset and total copied over unchanged. -/
theorem c2_mixed_page_decodes_elementwise
    (dT : Json → Except String T) (parseUuid : String → Option Uuid)
    (okRest errRest : List (String × Json)) (t : T) (errs : ApiErrors)
    (l o tot : Int)
    (hok : dT (.obj okRest) = .ok t)
    (herr : deserializeApiErrors parseUuid (.obj errRest) = .ok errs) :
    decodeResultsPage dT parseUuid (.obj
      [("results", .arr [.obj (("result", .str "ok") :: okRest),
                         .obj (("result", .str "error") :: errRest)]),
       ("limit", .num l), ("offset", .num o), ("total", .num tot)]) =
    .ok { results := [.ok t, .error (Errors.HttpWithBody errs)],
          limit := l, offset := o, total := tot } := by
  simp [decodeResultsPage, decodeResultsRaw, decodeList, deserializeApiResult,
        decodeI32, List.lookup, List.eraseP, hok, herr, Results.from_response,
        Except.mapError, Except.map, bind, Except.bind]

/-- Witness for C2: a two-element page of NoData payloads, one per tag. -/
theorem c2_witness :
    decodeResultsPage decodeNoData parseUuidAny (.obj
      [("results", .arr [.obj [("result", .str "ok")],
                         .obj [("result", .str "error")]]),
       ("limit", .num 10), ("offset", .num 0), ("total", .num 2)]) =
    .ok { results := [.ok .mk, .error (Errors.HttpWithBody { errors := [] })],
          limit := 10, offset := 0, total := 2 } :=
  c2_mixed_page_decodes_elementwise decodeNoData parseUuidAny [] [] .mk
    { errors := [] } 10 0 2 rfl rfl

/-- C3: an envelope whose "result" tag is absent, or holds anything other
than the strings "ok" and "error", is a deserialization error — never a
silent success. -/
theorem c3_unknown_or_missing_tag_is_decode_error
    (dT : Json → Except String T) (dE : Json → Except String E)
    (fields : List (String × Json))
    (h : ∀ v, List.lookup "result" fields = some v →
      v ≠ .str "ok" ∧ v ≠ .str "error") :
    ∃ msg, deserializeApiResult dT dE (.obj fields) = .error msg := by
  simp only [deserializeApiResult]
  cases hv : List.lookup "result" fields with
  | none => exact ⟨"missing field result", rfl⟩
  | some v =>
    obtain ⟨h1, h2⟩ := h v hv
    cases v with
    | str s =>
      have hs1 : ¬ s = "ok" := fun hs => h1 (by rw [hs])
      have hs2 : ¬ s = "error" := fun hs => h2 (by rw [hs])
      refine ⟨"unknown variant " ++ s ++ ", expected ok or error", ?_⟩
      simp [hs1, hs2]
    | null => exact ⟨"invalid type: the result tag must be a string", rfl⟩
    | bool b => exact ⟨"invalid type: the result tag must be a string", rfl⟩
    | num n => exact ⟨"invalid type: the result tag must be a string", rfl⟩
    | arr elems => exact ⟨"invalid type: the result tag must be a string", rfl⟩
    | obj fs => exact ⟨"invalid type: the result tag must be a string", rfl⟩

/-- Witness for C3: the tag value "okay" is rejected. -/
theorem c3_witness :
    ∃ msg, deserializeApiResult decodeNoData (deserializeApiErrors parseUuidAny)
      (.obj [("result", .str "okay")]) = .error msg :=
  c3_unknown_or_missing_tag_is_decode_error decodeNoData
    (deserializeApiErrors parseUuidAny) [("result", .str "okay")]
    (fun v hv => by
      simp [List.lookup] at hv
      subst hv
      exact ⟨by simp, by simp⟩)

/-- C4: when `refresh_tokens` succeeds, the stored pair afterwards is exactly
the pair of the returned response — session and refresh are replaced
together as one value, so neither can be updated alone. -/
theorem c4_refresh_success_replaces_whole_pair
    (c : Client) (transport : Request → Except Unit Json)
    (parseUuid : String → Option Uuid) (res : RefreshTokenResponse)
    (h : (c.refresh_tokens transport parseUuid).1 = .ok res) :
    (c.refresh_tokens transport parseUuid).2.tokens = some res.tokens := by
  have hspec := refresh_tokens_spec c transport parseUuid
  rw [h] at hspec
  rw [hspec]
  rfl

/-- Witness for C4: the crate's refresh_token mock — both tokens become the
"2" pair returned by the response. -/
theorem c4_witness :
    (clientWithTokens.refresh_tokens refreshOkTransport parseUuidAny).1 =
      .ok { tokens := { session := "sessiontoken2", refresh := "refreshtoken2" },
            message := some "Token refreshed!" } ∧
    (clientWithTokens.refresh_tokens refreshOkTransport parseUuidAny).2.tokens =
      some { session := "sessiontoken2", refresh := "refreshtoken2" } :=
  ⟨rfl, c4_refresh_success_replaces_whole_pair clientWithTokens refreshOkTransport
    parseUuidAny
    { tokens := { session := "sessiontoken2", refresh := "refreshtoken2" },
      message := some "Token refreshed!" } rfl⟩

/-- C5: when `login` or `refresh_tokens` returns an error, the client
afterwards is exactly the client before — credential updates are atomic on
failure. -/
theorem c5_login_refresh_error_atomicity
    (c : Client) (u p : String)
    (tr1 tr2 : Request → Except Unit Json) (parseUuid : String → Option Uuid)
    (e1 e2 : Errors)
    (hl : (c.login u p tr1 parseUuid).1 = .error e1)
    (hr : (c.refresh_tokens tr2 parseUuid).1 = .error e2) :
    (c.login u p tr1 parseUuid).2 = c ∧ (c.refresh_tokens tr2 parseUuid).2 = c := by
  constructor
  · have hspec := login_spec c u p tr1 parseUuid
    rw [hl] at hspec
    exact hspec
  · have hspec := refresh_tokens_spec c tr2 parseUuid
    rw [hr] at hspec
    exact hspec

/-- Witness for C5: a transport-level failure on both calls leaves the
client's stored pair in place. -/
theorem c5_witness :
    (clientWithTokens.login "test" "hunter1" failTransport parseUuidAny).2 =
      clientWithTokens ∧
    (clientWithTokens.refresh_tokens failTransport parseUuidAny).2 =
      clientWithTokens :=
  c5_login_refresh_error_atomicity clientWithTokens "test" "hunter1"
    failTransport failTransport parseUuidAny Errors.Http Errors.Http rfl rfl

/-- C6: when the remote logout call fails — transport failure or error
envelope — the stored credentials are left as they were, not cleared. -/
theorem c6_logout_failure_keeps_credentials
    (c : Client) (transport : Request → Except Unit Json)
    (parseUuid : String → Option Uuid) (err : Errors)
    (h : (c.logout transport parseUuid).1 = .error err) :
    (c.logout transport parseUuid).2 = c := by
  have hspec := logout_spec c transport parseUuid
  rw [h] at hspec
  exact hspec

/-- Witness for C6: a transport failure during logout leaves the pair stored. -/
theorem c6_witness :
    (clientWithTokens.logout failTransport parseUuidAny).2 = clientWithTokens :=
  c6_logout_failure_keeps_credentials clientWithTokens failTransport parseUuidAny
    Errors.Http rfl

/-- C7: a successful login followed immediately by a successful logout leaves
the client with no stored credentials. -/
theorem c7_login_then_logout_clears_tokens
    (c : Client) (u p : String)
    (tr1 tr2 : Request → Except Unit Json) (parseUuid : String → Option Uuid)
    (t : AuthTokens)
    (_hl : (c.login u p tr1 parseUuid).1 = .ok t)
    (hlo : ((c.login u p tr1 parseUuid).2.logout tr2 parseUuid).1 = .ok ()) :
    ((c.login u p tr1 parseUuid).2.logout tr2 parseUuid).2.get_tokens = none := by
  have hspec := logout_spec (c.login u p tr1 parseUuid).2 tr2 parseUuid
  rw [hlo] at hspec
  rw [hspec]
  rfl

/-- Witness for C7: the crate's login and logout mock responses in sequence. -/
theorem c7_witness :
    ((clientNoTokens.login "test" "hunter1" loginOkTransport parseUuidAny).2.logout
      okEnvelopeTransport parseUuidAny).2.get_tokens = none :=
  c7_login_then_logout_clears_tokens clientNoTokens "test" "hunter1"
    loginOkTransport okEnvelopeTransport parseUuidAny tokens0 rfl rfl

/-- C8: an envelope tagged "error" decodes to the API error value carrying
exactly the records of the "errors" field — id and status required, title
and detail optional — and to an empty record list when "errors" is absent. -/
theorem c8_error_envelope_collects_records
    (dT : Json → Except String T) (parseUuid : String → Option Uuid)
    (ids : String) (u : Uuid) (st : Int) (ti de : String)
    (hpu : parseUuid ids = some u) :
    deserializeApiResult dT (deserializeApiErrors parseUuid)
      (.obj [("result", .str "error"),
             ("errors", .arr [.obj [("id", .str ids), ("status", .num st),
                                    ("title", .str ti), ("detail", .str de)]])]) =
      .ok (.error { errors :=
        [{ id := u, status := st, title := some ti, detail := some de }] }) ∧
    deserializeApiResult dT (deserializeApiErrors parseUuid)
      (.obj [("result", .str "error"),
             ("errors", .arr [.obj [("id", .str ids), ("status", .num st)]])]) =
      .ok (.error { errors :=
        [{ id := u, status := st, title := none, detail := none }] }) ∧
    deserializeApiResult dT (deserializeApiErrors parseUuid)
      (.obj [("result", .str "error")]) =
      .ok (.error { errors := [] }) := by
  refine ⟨?_, ?_, ?_⟩ <;>
    simp [deserializeApiResult, deserializeApiErrors, deserializeApiError,
          decodeList, decodeString, decodeI32, decodeOptStringField,
          List.lookup, List.eraseP, hpu, Except.map, bind, Except.bind, pure,
          Except.pure]

/-- Witness for C8: the spec's 503 "Servers are burning" example record. -/
theorem c8_witness :
    deserializeApiResult decodeNoData (deserializeApiErrors parseUuidAny)
      (.obj [("result", .str "error"),
             ("errors", .arr [.obj
               [("id", .str "5e50fc7b-e185-45b1-a692-58e8091b22d2"),
                ("status", .num 503),
                ("title", .str "The service is unavailable"),
                ("detail", .str "Servers are burning")]])]) =
      .ok (.error { errors :=
        [{ id := { val := "5e50fc7b-e185-45b1-a692-58e8091b22d2" },
           status := 503,
           title := some "The service is unavailable",
           detail := some "Servers are burning" }] }) :=
  (c8_error_envelope_collects_records decodeNoData parseUuidAny
    "5e50fc7b-e185-45b1-a692-58e8091b22d2"
    { val := "5e50fc7b-e185-45b1-a692-58e8091b22d2" } 503
    "The service is unavailable" "Servers are burning" rfl).1

/-- C9 counterexample: `set_tokens` (src/client.rs lines 98-101) is a public
Client operation outside login/logout/refresh_tokens, and it changes the
stored credential pair, so the three lifecycle operations are not the only
mutators of the public interface. -/
theorem c9_counterexample_set_tokens_mutates :
    (clientNoTokens.set_tokens (some tokens0)).tokens ≠ clientNoTokens.tokens := by
  decide

/-- C9 (amended): besides login, logout, refresh_tokens and the explicit
setter `set_tokens`, the Client operations leave the stored pair unchanged —
`send_request` (which takes the client by shared reference), `ping`, and
`get_tokens`. -/
theorem c9_other_operations_preserve_tokens
    (c : Client) (e : EndpointSpec) (transport : Request → Except Unit Json)
    (decodeRaw : Json → Except String Raw) (fromResp : Raw → R)
    (textTransport : String → Except Unit String) :
    (c.send_request_st e transport decodeRaw fromResp).2.tokens = c.tokens ∧
    (c.ping textTransport).2.tokens = c.tokens ∧
    Client.get_tokens c = c.tokens := by
  refine ⟨rfl, ?_, rfl⟩
  unfold Client.ping
  cases htr : textTransport (c.base_url ++ "/ping") with
  | error e => rfl
  | ok body => by_cases hb : body = "pong" <;> simp [hb]

/-- C10: whenever a token pair is stored, `send_request` hands the transport
exactly one request carrying the session token as bearer credential — for
every endpoint, auth-required or not. -/
theorem c10_bearer_attached_whenever_tokens_stored
    (c : Client) (e : EndpointSpec) (transport : Request → Except Unit Json)
    (decodeRaw : Json → Except String Raw) (fromResp : Raw → R)
    (t : AuthTokens) (h : c.tokens = some t) :
    (c.send_request e transport decodeRaw fromResp).2 =
      [{ method := e.method, url := c.base_url ++ e.path, query := e.query,
         body := e.body, multipart := e.multipart, bearer := some t.session }] := by
  unfold Client.send_request
  simp only [Client.get_tokens, h]
  exact performSend_sends_once _ transport decodeRaw fromResp

/-- Witness for C10: the non-auth-required Login endpoint still gets the
stored session token as bearer credential. -/
theorem c10_witness :
    (clientWithTokens.send_request (loginEndpoint "test" "hunter1") failTransport
      decodeNoData (fun r => r)).2 =
      [{ method := .POST, url := "https://api.mangadex.org" ++ "/auth/login",
         query := none,
         body := some (.obj [("username", .str "test"), ("password", .str "hunter1")]),
         multipart := false, bearer := some "sessiontoken" }] :=
  c10_bearer_attached_whenever_tokens_stored clientWithTokens
    (loginEndpoint "test" "hunter1") failTransport decodeNoData (fun r => r)
    tokens0 rfl

end MangadexRs
